import Mathlib

set_option autoImplicit false

namespace ChannelsPlugin

/-!
Shallow embedding of the opencode-channels-plugin correlation layer:
the pending-request store (`src/state/pending.ts`), the Telegram channel's
correlation table and update handling (`src/channels/telegram.ts`), the shared
response normalization (`src/channels/base.ts`), the permission orchestrator
(`src/handlers/permission.ts`), and the remote command dispatcher
(`src/handlers/remote.ts`).

JS `Map` objects are modelled as insertion-ordered association lists with
unique keys; `Map.get` returns the value of the first matching key, `Map.set`
replaces in place or appends, `Map.delete` removes the key.  JS promises are
modelled by an explicit outcome map with first-settlement-wins semantics.
-/

/-- Whitespace test used by JS `trim` and `/\s+/`, restricted to the ASCII
whitespace actually occurring in channel traffic. -/
def isWsChar (c : Char) : Bool :=
  c == ' ' || c == '\t' || c == '\n' || c == '\r'

/-- JS `String.prototype.trim` (kernel-reducible char-list implementation). -/
def jsTrim (s : String) : String :=
  ⟨((s.data.dropWhile isWsChar).reverse.dropWhile isWsChar).reverse⟩

/-- JS `String.prototype.toLowerCase`, restricted to ASCII case mapping (all
decision keywords in the source are ASCII or case-less glyphs). -/
def jsToLower (s : String) : String := ⟨s.data.map Char.toLower⟩

/-- Character-list core of `jsStartsWith`. -/
def charsStartWith : List Char → List Char → Bool
  | _, [] => true
  | [], _ :: _ => false
  | c :: cs, p :: ps => c == p && charsStartWith cs ps

/-- JS `String.prototype.startsWith`. -/
def jsStartsWith (s pat : String) : Bool := charsStartWith s.data pat.data

/-- JS `String.prototype.slice(0, n)` on the ASCII ids used by the source. -/
def strTake (s : String) (n : Nat) : String := ⟨s.data.take n⟩

/-- JS `String.prototype.slice(n)` on the ASCII command text used by the
source. -/
def strDrop (s : String) (n : Nat) : String := ⟨s.data.drop n⟩

/-- `lines.join("\n")`. -/
def joinLines : List String → String
  | [] => ""
  | [l] => l
  | l :: rest => l ++ "\n" ++ joinLines rest

/-- JS `Map.get`: value of the first entry with the given key. -/
def mapFind? {α : Type} : List (String × α) → String → Option α
  | [], _ => none
  | (k, v) :: rest, key => if k = key then some v else mapFind? rest key

/-- JS `Map.has`. -/
def mapHas {α : Type} (m : List (String × α)) (key : String) : Bool :=
  (mapFind? m key).isSome

/-- JS `Map.set`: replace the entry in place if the key exists, else append. -/
def mapSet {α : Type} : List (String × α) → String → α → List (String × α)
  | [], key, v => [(key, v)]
  | (k, w) :: rest, key, v =>
      if k = key then (key, v) :: rest else (k, w) :: mapSet rest key v

/-- JS `Map.delete`: remove the entry with the given key (keys are unique, so
removing every match coincides with deleting the key). -/
def mapErase {α : Type} : List (String × α) → String → List (String × α)
  | [], _ => []
  | (k, v) :: rest, key =>
      if k = key then mapErase rest key else (k, v) :: mapErase rest key

/-- Errors a pending request's rejecter can be called with
(`src/state/pending.ts` lines 24 and 62). -/
inductive ErrKind
  | timeout (id : String)
  | storeCleared
  deriving Repr, DecidableEq

/-- Outcome of a settled promise: the resolver path carries a decision string,
the rejecter path carries an error. -/
inductive Settlement
  | resolved (response : String)
  | rejected (error : ErrKind)
  deriving Repr, DecidableEq

/-- `PendingRequest` record from `src/types.ts` (the `resolver`/`rejecter`
function fields are modelled by the store state's outcome map; `args` is
opaque). -/
structure PendingRequest where
  id : String
  sessionId : String
  messageId : String
  tool : String
  args : String
  timestamp : Nat
  deriving Repr, DecidableEq

/-- State of a `PendingRequestsStore` (`src/state/pending.ts`): the private
`requests` map together with the settlement state of every promise handed out
by `add`.  An id absent from `outcomes` is an unsettled (outstanding) promise. -/
structure StoreState where
  requests : List (String × PendingRequest)
  outcomes : List (String × Settlement)
  deriving Repr, DecidableEq

/-- JS promise settlement: the first call to resolve/reject wins, any later
settlement attempt on the same promise is ignored. -/
def settle (outcomes : List (String × Settlement)) (id : String) (st : Settlement) :
    List (String × Settlement) :=
  if mapHas outcomes id then outcomes else (id, st) :: outcomes

/-- `PendingRequestsStore.add` (lines 11-28): create a fresh promise and store
the record under its id.  The timer it schedules is modelled separately by
`StoreState.timeoutFire`. -/
def StoreState.add (s : StoreState) (req : PendingRequest) : StoreState :=
  { s with requests := mapSet s.requests req.id req }

/-- `PendingRequestsStore.resolve` (lines 30-37): look up the id; if absent
return `false` with no side effect; otherwise delete the entry and call the
record's resolver with the response. -/
def StoreState.resolve (s : StoreState) (id : String) (response : String) :
    Bool × StoreState :=
  match mapFind? s.requests id with
  | none => (false, s)
  | some _ =>
      (true,
       { requests := mapErase s.requests id,
         outcomes := settle s.outcomes id (Settlement.resolved response) })

/-- `PendingRequestsStore.reject` (lines 39-46): look up the id; if absent
return `false` with no side effect; otherwise delete the entry and call the
record's rejecter with the error. -/
def StoreState.reject (s : StoreState) (id : String) (e : ErrKind) :
    Bool × StoreState :=
  match mapFind? s.requests id with
  | none => (false, s)
  | some _ =>
      (true,
       { requests := mapErase s.requests id,
         outcomes := settle s.outcomes id (Settlement.rejected e) })

/-- The timer callback scheduled by `add` (lines 21-26): when it fires, if the
id is still present it is deleted and the promise is rejected with the timeout
error; otherwise the timer is a silent no-op. -/
def StoreState.timeoutFire (s : StoreState) (id : String) : StoreState :=
  if mapHas s.requests id then
    { requests := mapErase s.requests id,
      outcomes := settle s.outcomes id (Settlement.rejected (ErrKind.timeout id)) }
  else s

/-- `PendingRequestsStore.clear` (lines 60-65): call every stored record's
rejecter with the store-cleared error, then empty the map. -/
def StoreState.clear (s : StoreState) : StoreState :=
  { requests := [],
    outcomes :=
      s.requests.foldl
        (fun acc p => settle acc p.1 (Settlement.rejected ErrKind.storeCleared))
        s.outcomes }

/-- `PermissionRequest` from `src/types.ts` (`args` opaque, optional
`description` omitted). -/
structure PermissionRequest where
  id : String
  sessionId : String
  tool : String
  args : String
  timestamp : Nat
  deriving Repr, DecidableEq

/-- Correlation-table state of a `TelegramChannel`
(`src/channels/telegram.ts` line 33): the private `pendingMessageIds` map from
request id to the Telegram-native numeric message id. -/
structure ChannelState where
  pendingMessageIds : List (String × Int)
  deriving Repr, DecidableEq

/-- `TelegramChannel.sendPermissionRequest` (lines 177-211).  `sendResult` is
the `message_id` from Telegram's `sendMessage` response (`none` when the API
reports failure, in which case the method throws).  On success the method
stores `request.id -> messageId` in the correlation table and returns
`request.id`. -/
def sendPermissionRequest (s : ChannelState) (request : PermissionRequest)
    (sendResult : Option Int) : Except String (ChannelState × String) :=
  match sendResult with
  | none => Except.error "Failed to send permission request"
  | some messageId =>
      Except.ok
        ({ pendingMessageIds := mapSet s.pendingMessageIds request.id messageId },
         request.id)

/-- Loop body of `TelegramChannel.findRequestIdByMessageId` (lines 123-130):
scan the correlation table for the first entry whose native id's string form
equals the given message id. -/
def findByMsgId : List (String × Int) → String → Option String
  | [], _ => none
  | (reqId, msgId) :: rest, messageId =>
      if toString msgId = messageId then some reqId else findByMsgId rest messageId

/-- `TelegramChannel.findRequestIdByMessageId` (lines 123-130). -/
def findRequestIdByMessageId (s : ChannelState) (messageId : String) : Option String :=
  findByMsgId s.pendingMessageIds messageId

/-- An attempted `editMessageText` call recorded by `updateMessage`
(`succeeded` is false when the fetch threw; the catch block swallows it). -/
inductive EditAttempt
  | attempted (nativeMsgId : Int) (succeeded : Bool)
  deriving Repr, DecidableEq

/-- `TelegramChannel.updateMessage` (lines 213-233).  `messageId` is the key
used by callers (the request id).  The guard `if (!telegramMsgId) return`
uses JS falsiness, so both a missing entry and a stored native id `0` return
early.  Otherwise the edit is attempted (its failure, `editFails`, is caught
and ignored) and the entry is deleted afterwards. -/
def updateMessage (s : ChannelState) (messageId : String) (editFails : Bool) :
    ChannelState × Option EditAttempt :=
  match mapFind? s.pendingMessageIds messageId with
  | none => (s, none)
  | some telegramMsgId =>
      if telegramMsgId = 0 then (s, none)
      else
        ({ pendingMessageIds := mapErase s.pendingMessageIds messageId },
         some (EditAttempt.attempted telegramMsgId (!editFails)))

/-- `BaseChannel.parseResponse` (`src/channels/base.ts` lines 50-72):
lower-case and trim the text, map affirmative words to `allow` and negative
words to `deny`, otherwise return the trimmed original text. -/
def parseResponse (text : String) : String :=
  let normalized := jsTrim (jsToLower text)
  if normalized = "allow" ∨ normalized = "yes" ∨ normalized = "y" ∨ normalized = "✅" then
    "allow"
  else if normalized = "deny" ∨ normalized = "no" ∨ normalized = "n" ∨ normalized = "❌" then
    "deny"
  else
    jsTrim text

/-- Inbound Telegram message payload (`TelegramUpdate.message`,
`src/channels/telegram.ts` lines 7-12); `reply_to_message` keeps only the
replied-to `message_id`. -/
structure TgMessage where
  message_id : Int
  text : Option String
  reply_to_message : Option Int
  deriving Repr, DecidableEq

/-- Inbound callback query payload (`TelegramUpdate.callback_query`, lines
13-17); `message` keeps only the originating `message_id`. -/
structure TgCallbackQuery where
  id : String
  message : Option Int
  data : Option String
  deriving Repr, DecidableEq

/-- A Telegram update (lines 5-18). -/
structure TelegramUpdate where
  update_id : Int
  message : Option TgMessage
  callback_query : Option TgCallbackQuery
  deriving Repr, DecidableEq

/-- Observable actions `handleUpdate` can perform: invoking the response
callbacks (`BaseChannel.notifyResponse`) and answering a callback query.
These are the only outward calls in `handleUpdate`/`handleCallbackQuery`;
the Telegram channel has no call into the remote dispatcher. -/
inductive ChannelEffect
  | notifyResponse (requestId : String) (response : String)
  | answerCallbackQuery (queryId : String) (text : String)
  deriving Repr, DecidableEq

/-- `TelegramChannel.handleCallbackQuery` (lines 105-121).  The guard
`if (!query.message || !query.data) return` is falsy for a missing message,
missing data, or empty-string data. -/
def handleCallbackQuery (s : ChannelState) (q : TgCallbackQuery) : List ChannelEffect :=
  match q.message, q.data with
  | some msgId, some data =>
      if data = "" then []
      else
        match findRequestIdByMessageId s (toString msgId) with
        | some requestId =>
            let response := parseResponse data
            [ChannelEffect.notifyResponse requestId response,
             ChannelEffect.answerCallbackQuery q.id ("Response: " ++ response)]
        | none => []
  | _, _ => []

/-- `TelegramChannel.handleUpdate` (lines 88-103): callback queries are
delegated; a text message replying to a previously sent message is matched
against the correlation table and, when matched, its parsed decision is
pushed to the response callbacks.  In every other case the method returns
without any action. -/
def handleUpdate (s : ChannelState) (u : TelegramUpdate) : List ChannelEffect :=
  match u.callback_query with
  | some q => handleCallbackQuery s q
  | none =>
      match u.message with
      | some m =>
          match m.text, m.reply_to_message with
          | some text, some replyTo =>
              if text = "" then []
              else
                match findRequestIdByMessageId s (toString replyTo) with
                | some requestId =>
                    [ChannelEffect.notifyResponse requestId (parseResponse text)]
                | none => []
          | _, _ => []
      | none => []

/-- Terminal-edit content on resolution
(`src/handlers/permission.ts`, the success branch of
`handlePermissionRequest`). -/
def resolvedEditText (tool : String) (response : String) : String :=
  "✅ *Permission " ++
    (if response = "allow" then "Granted"
     else if response = "deny" then "Denied"
     else "Responded") ++
    "*\n\nTool: `" ++ tool ++ "`\nResponse: " ++ response

/-- Terminal-edit content on failure (the catch branch of
`handlePermissionRequest`). -/
def timeoutEditText (tool : String) : String :=
  "⏱️ *Permission Timeout*\n\nTool: `" ++ tool ++ "`\nNo response received."

/-- The tail of `PermissionHandler.handlePermissionRequest`
(`src/handlers/permission.ts` lines 203-218): given the awaited outcome of
the store's promise, perform the terminal `updateMessage` edit (keyed by the
request id) and either return the decision or re-raise the error.  Returns
the list of `updateMessage (id, content)` calls and the result propagated to
the caller. -/
def handlePermissionOutcome (tool : String) (requestId : String)
    (outcome : Except ErrKind String) :
    List (String × String) × Except ErrKind String :=
  match outcome with
  | Except.ok response =>
      ([(requestId, resolvedEditText tool response)], Except.ok response)
  | Except.error e =>
      ([(requestId, timeoutEditText tool)], Except.error e)

/-- A session as returned by the host's session listing
(`client.session.list` in `src/handlers/remote.ts`). -/
structure SessionInfo where
  id : String
  title : String
  updated : Int
  deriving Repr, DecidableEq

/-- `RemoteController` mutable state: the `enabled` flag and the state store's
`activeSessionId`. -/
structure RemoteState where
  enabled : Bool
  activeSessionId : Option String
  deriving Repr, DecidableEq

/-- Observable actions of the remote dispatcher: channel sends, prompt
submissions to the host (`client.session.prompt`), and persisting the active
session id (`ChannelsStateStore.setActiveSessionId`, which saves to disk). -/
inductive RemoteEffect
  | channelSend (text : String)
  | promptSession (sessionId : String) (text : String)
  | persistActiveSession (sessionId : String)
  deriving Repr, DecidableEq

/-- Message sent when free text arrives with no active session
(`src/handlers/remote.ts` lines 46-52). -/
def noActiveSessionText : String :=
  "No active session. Use `/list` then `/use <sessionId>`."

/-- Message for a `use` prefix matching no session (lines 162-168). -/
def sessionNotFoundText : String :=
  "Session not found. Use `/list` to see recent sessions."

/-- Message for a `use` prefix matching several sessions (lines 169-175). -/
def ambiguousSessionText : String :=
  "Multiple matches. Use a longer session ID prefix."

/-- Usage message for `use` without an argument (lines 100-106). -/
def useUsageText : String := "Usage: `/use <sessionId>`"

/-- Unknown-command reply (lines 109-114). -/
def unknownCommandText : String := "Unknown command. Use `/help`."

/-- Confirmation sent after the active session is set (lines 178-181). -/
def activeSessionSetText (sessionId : String) : String :=
  "Active session set to `" ++ strTake sessionId 8 ++ "`"

/-- `/help` output (lines 78-89). -/
def helpText : String :=
  joinLines
    ["*Commands*", "",
     "`/list` - list recent sessions",
     "`/use <sessionId>` - set active session",
     "`/status` - show current status"]

/-- `RemoteController.formatStatus` (lines 118-126). -/
def formatStatus (s : RemoteState) : String :=
  joinLines
    ["*Channels Status*", "",
     "Enabled: `" ++ (if s.enabled then "yes" else "no") ++ "`",
     "Active session: `" ++
       (match s.activeSessionId with
        | some sid => sid
        | none => "none") ++ "`"]

/-- Stable insertion (descending by `updated`) used to model the JS stable
sort `(a, b) => b.time.updated - a.time.updated`. -/
def insertByUpdated (session : SessionInfo) : List SessionInfo → List SessionInfo
  | [] => [session]
  | s2 :: rest =>
      if s2.updated < session.updated then session :: s2 :: rest
      else s2 :: insertByUpdated session rest

/-- Sessions sorted most-recently-updated first (line 133). -/
def sortSessionsDesc (sessions : List SessionInfo) : List SessionInfo :=
  sessions.foldl (fun acc session => insertByUpdated session acc) []

/-- `RemoteController.sendSessionList` (lines 128-152): top five sessions by
recency, rendered with 8-character id prefixes (`title || "Untitled"` treats
an empty title as falsy). -/
def sendSessionList (s : RemoteState) (sessions : List SessionInfo) : List RemoteEffect :=
  let top := (sortSessionsDesc sessions).take 5
  if top.length = 0 then [RemoteEffect.channelSend "No sessions found."]
  else
    let lines :=
      ["*Recent Sessions*"] ++
      top.map (fun session =>
        "`" ++ strTake session.id 8 ++ "` - " ++
        (if session.title = "" then "Untitled" else session.title) ++
        (if s.activeSessionId = some session.id then " (active)" else "")) ++
      ["", "Use `/use <sessionId>` to select."]
    [RemoteEffect.channelSend (joinLines lines)]

/-- `RemoteController.setActiveSession` (lines 154-182): filter the host's
session list by id prefix; zero matches reports not-found, several matches
reports ambiguity (both leave the state untouched), exactly one match sets
and persists the active session id and confirms. -/
def setActiveSession (s : RemoteState) (sessions : List SessionInfo) (pfx : String) :
    RemoteState × List RemoteEffect :=
  let matched := sessions.filter (fun session => jsStartsWith session.id pfx)
  match matched with
  | [] => (s, [RemoteEffect.channelSend sessionNotFoundText])
  | [session] =>
      ({ s with activeSessionId := some session.id },
       [RemoteEffect.persistActiveSession session.id,
        RemoteEffect.channelSend (activeSessionSetText session.id)])
  | _ => (s, [RemoteEffect.channelSend ambiguousSessionText])

/-- Token accumulator behind `splitWhitespace`. -/
def tokenizeWs : List Char → List Char → List String
  | [], acc => if acc.isEmpty then [] else [⟨acc.reverse⟩]
  | c :: cs, acc =>
      if isWsChar c then
        if acc.isEmpty then tokenizeWs cs []
        else (⟨acc.reverse⟩ : String) :: tokenizeWs cs []
      else tokenizeWs cs (c :: acc)

/-- JS `raw.trim().split(/\s+/)` restricted to its use on command text: the
whitespace-separated tokens (the empty-input corner, where JS yields a single
empty token, lands in the same unknown-command branch as the model's empty
list). -/
def splitWhitespace (s : String) : List String := tokenizeWs s.data []

/-- `RemoteController.handleCommand` (lines 75-116).  `sessions` stands for
the host's session listing consulted by `list` and `use`. -/
def handleCommand (s : RemoteState) (raw : String) (sessions : List SessionInfo) :
    RemoteState × List RemoteEffect :=
  match splitWhitespace raw with
  | [] => (s, [RemoteEffect.channelSend unknownCommandText])
  | command :: args =>
      if command = "help" then (s, [RemoteEffect.channelSend helpText])
      else if command = "status" then (s, [RemoteEffect.channelSend (formatStatus s)])
      else if command = "list" then (s, sendSessionList s sessions)
      else if command = "use" then
        match args with
        | [] => (s, [RemoteEffect.channelSend useUsageText])
        | a :: _ => setActiveSession s sessions a
      else (s, [RemoteEffect.channelSend unknownCommandText])

/-- `RemoteController.handleIncoming` (lines 35-73).  `promptError` models the
outcome of the fallible `client.session.prompt` call (`some err` when it
throws, in which case the catch block reports the failure back through the
channel). -/
def handleIncoming (s : RemoteState) (messageText : String)
    (sessions : List SessionInfo) (promptError : Option String) :
    RemoteState × List RemoteEffect :=
  let text := jsTrim messageText
  if !s.enabled then (s, [])
  else if text = "" then (s, [])
  else if jsStartsWith text "/" then handleCommand s (strDrop text 1) sessions
  else
    match s.activeSessionId with
    | none => (s, [RemoteEffect.channelSend noActiveSessionText])
    | some sessionId =>
        match promptError with
        | none => (s, [RemoteEffect.promptSession sessionId text])
        | some err =>
            (s, [RemoteEffect.promptSession sessionId text,
                 RemoteEffect.channelSend ("❌ Failed to send message: " ++ err)])

/-- Concrete pending-request record used by witnesses. -/
def demoPending : PendingRequest :=
  { id := "perm_1", sessionId := "ses_1", messageId := "perm_1", tool := "bash",
    args := "rm -rf /tmp/x", timestamp := 0 }

/-- Second concrete pending-request record used by witnesses. -/
def demoPending2 : PendingRequest :=
  { id := "perm_2", sessionId := "ses_1", messageId := "perm_2", tool := "webfetch",
    args := "https://example.com", timestamp := 1 }

/-- Store holding one outstanding request. -/
def demoStore : StoreState :=
  { requests := [("perm_1", demoPending)], outcomes := [] }

/-- Store holding two outstanding requests. -/
def demoStore2 : StoreState :=
  { requests := [("perm_1", demoPending), ("perm_2", demoPending2)], outcomes := [] }

/-- Concrete permission request used by witnesses. -/
def demoRequest : PermissionRequest :=
  { id := "perm_1", sessionId := "ses_1", tool := "bash", args := "rm -rf /tmp/x",
    timestamp := 0 }

/-- Concrete host session listing used by witnesses. -/
def demoSessions : List SessionInfo :=
  [{ id := "abc12345", title := "fix build", updated := 5 },
   { id := "abd99000", title := "refactor", updated := 3 }]

theorem mapFind?_mapSet_self {α : Type} (m : List (String × α)) (k : String) (v : α) :
    mapFind? (mapSet m k v) k = some v := by
  induction m with
  | nil => simp [mapSet, mapFind?]
  | cons p rest ih =>
      obtain ⟨k2, w⟩ := p
      by_cases h : k2 = k
      · simp [mapSet, h, mapFind?]
      · simp [mapSet, h, mapFind?, ih]

theorem mapFind?_mem {α : Type} {m : List (String × α)} {k : String} {v : α}
    (h : mapFind? m k = some v) : (k, v) ∈ m := by
  induction m with
  | nil => simp [mapFind?] at h
  | cons p rest ih =>
      obtain ⟨k2, w⟩ := p
      by_cases hk : k2 = k
      · subst hk
        simp [mapFind?] at h
        simp [h]
      · simp [mapFind?, hk] at h
        exact List.mem_cons_of_mem _ (ih h)

theorem findByMsgId_isSome_of_mem {m : List (String × Int)} {k : String} {v : Int}
    (h : (k, v) ∈ m) : (findByMsgId m (toString v)).isSome = true := by
  induction m with
  | nil => simp at h
  | cons p rest ih =>
      obtain ⟨k2, w⟩ := p
      by_cases hw : toString w = toString v
      · simp [findByMsgId, hw]
      · have hmem : (k, v) ∈ rest := by
          rcases List.mem_cons.mp h with heq | hrest
          · rw [Prod.mk.injEq] at heq
            exact absurd (by rw [heq.2]) hw
          · exact hrest
        simp [findByMsgId, hw, ih hmem]

theorem findByMsgId_mem_of_some {m : List (String × Int)} {msg : String} {r : String}
    (h : findByMsgId m msg = some r) : ∃ v : Int, (r, v) ∈ m := by
  induction m with
  | nil => simp [findByMsgId] at h
  | cons p rest ih =>
      obtain ⟨k2, w⟩ := p
      by_cases hw : toString w = msg
      · simp [findByMsgId, hw] at h
        exact ⟨w, by simp [h]⟩
      · simp [findByMsgId, hw] at h
        obtain ⟨v, hv⟩ := ih h
        exact ⟨v, List.mem_cons_of_mem _ hv⟩

theorem mapFind?_mapErase_self {α : Type} (m : List (String × α)) (k : String) :
    mapFind? (mapErase m k) k = none := by
  induction m with
  | nil => rfl
  | cons p rest ih =>
      obtain ⟨k2, w⟩ := p
      by_cases h : k2 = k
      · simp [mapErase, h, ih]
      · simp [mapErase, h, mapFind?, ih]

theorem ne_of_mem_mapErase {α : Type} {m : List (String × α)} {key r : String} {v : α}
    (h : (r, v) ∈ mapErase m key) : r ≠ key := by
  induction m with
  | nil => simp [mapErase] at h
  | cons p rest ih =>
      obtain ⟨k2, w⟩ := p
      by_cases hk : k2 = key
      · rw [mapErase, if_pos hk] at h
        exact ih h
      · rw [mapErase, if_neg hk] at h
        rcases List.mem_cons.mp h with heq | hrest
        · rw [Prod.mk.injEq] at heq
          rw [heq.1]
          exact hk
        · exact ih hrest

theorem settle_of_has {o : List (String × Settlement)} {k : String} {w : Settlement}
    (v : Settlement) (h : mapFind? o k = some w) : settle o k v = o := by
  simp [settle, mapHas, h]

theorem settle_find_self {o : List (String × Settlement)} {k : String}
    (v : Settlement) (h : mapFind? o k = none) : mapFind? (settle o k v) k = some v := by
  simp [settle, mapHas, h, mapFind?]

theorem settle_find_other {o : List (String × Settlement)} {k k2 : String}
    (v : Settlement) (h : k ≠ k2) : mapFind? (settle o k2 v) k = mapFind? o k := by
  have h2 : ¬(k2 = k) := fun e => h e.symm
  by_cases hh : mapHas o k2 <;> simp [settle, hh, mapFind?, h2]

theorem clearFold_preserve (l : List (String × PendingRequest))
    (o : List (String × Settlement)) (id : String) (w : Settlement)
    (h : mapFind? o id = some w) :
    mapFind?
      (l.foldl (fun acc p => settle acc p.1 (Settlement.rejected ErrKind.storeCleared)) o)
      id = some w := by
  induction l generalizing o with
  | nil => simpa using h
  | cons p rest ih =>
      rw [List.foldl_cons]
      apply ih
      by_cases hp : p.1 = id
      · rw [hp, settle_of_has _ h]
        exact h
      · rw [settle_find_other _ (fun e => hp e.symm)]
        exact h

theorem clearFold_sets :
    ∀ (l : List (String × PendingRequest)) (o : List (String × Settlement)) (id : String),
      (∃ p ∈ l, p.1 = id) → mapFind? o id = none →
      mapFind?
        (l.foldl (fun acc p => settle acc p.1 (Settlement.rejected ErrKind.storeCleared)) o)
        id = some (Settlement.rejected ErrKind.storeCleared)
  | [], _, _, hmem, _ => by simp at hmem
  | p :: rest, o, id, hmem, h => by
      rw [List.foldl_cons]
      by_cases hp : p.1 = id
      · have h2 : mapFind? (settle o p.1 (Settlement.rejected ErrKind.storeCleared)) id
            = some (Settlement.rejected ErrKind.storeCleared) := by
          rw [hp]
          exact settle_find_self _ h
        exact clearFold_preserve rest _ id _ h2
      · have h2 : mapFind? (settle o p.1 (Settlement.rejected ErrKind.storeCleared)) id
            = none := by
          rw [settle_find_other _ (fun e => hp e.symm)]
          exact h
        obtain ⟨q, hq, hq1⟩ := hmem
        rcases List.mem_cons.mp hq with heq | hqr
        · exact absurd (heq ▸ hq1) hp
        · exact clearFold_sets rest _ id ⟨q, hqr, hq1⟩ h2

theorem resolve_of_absent (s : StoreState) (id response : String)
    (h : mapFind? s.requests id = none) : s.resolve id response = (false, s) := by
  simp [StoreState.resolve, h]

theorem reject_of_absent (s : StoreState) (id : String) (e : ErrKind)
    (h : mapFind? s.requests id = none) : s.reject id e = (false, s) := by
  simp [StoreState.reject, h]

theorem timeoutFire_of_absent (s : StoreState) (id : String)
    (h : mapFind? s.requests id = none) : s.timeoutFire id = s := by
  simp [StoreState.timeoutFire, mapHas, h]

theorem resolve_of_present (s : StoreState) (id response : String) (req : PendingRequest)
    (h : mapFind? s.requests id = some req) :
    s.resolve id response
      = (true,
         { requests := mapErase s.requests id,
           outcomes := settle s.outcomes id (Settlement.resolved response) }) := by
  simp [StoreState.resolve, h]

theorem reject_of_present (s : StoreState) (id : String) (e : ErrKind) (req : PendingRequest)
    (h : mapFind? s.requests id = some req) :
    s.reject id e
      = (true,
         { requests := mapErase s.requests id,
           outcomes := settle s.outcomes id (Settlement.rejected e) }) := by
  simp [StoreState.reject, h]

theorem timeoutFire_of_present (s : StoreState) (id : String) (req : PendingRequest)
    (h : mapFind? s.requests id = some req) :
    s.timeoutFire id
      = { requests := mapErase s.requests id,
          outcomes := settle s.outcomes id (Settlement.rejected (ErrKind.timeout id)) } := by
  simp [StoreState.timeoutFire, mapHas, h]

/-- C1: for a request id registered in the store (present in the map, its
awaitable unsettled), each of resolve, timeout-expire and reject removes the
id from the map and settles the awaitable exactly once; after any of them has
fired, a later resolve or reject call for that id returns false and leaves
both the store's map and the awaitable's outcome unchanged. -/
theorem c1_store_exactly_once_completion (s : StoreState) (id r r2 : String)
    (e e2 : ErrKind) (hreg : mapHas s.requests id = true)
    (hout : mapFind? s.outcomes id = none) :
    ((s.resolve id r).1 = true
      ∧ mapFind? (s.resolve id r).2.requests id = none
      ∧ mapFind? (s.resolve id r).2.outcomes id = some (Settlement.resolved r)
      ∧ (s.resolve id r).2.resolve id r2 = (false, (s.resolve id r).2)
      ∧ (s.resolve id r).2.reject id e2 = (false, (s.resolve id r).2)
      ∧ (s.resolve id r).2.timeoutFire id = (s.resolve id r).2)
    ∧ (mapFind? (s.timeoutFire id).requests id = none
      ∧ mapFind? (s.timeoutFire id).outcomes id
          = some (Settlement.rejected (ErrKind.timeout id))
      ∧ (s.timeoutFire id).resolve id r2 = (false, s.timeoutFire id)
      ∧ (s.timeoutFire id).reject id e2 = (false, s.timeoutFire id))
    ∧ ((s.reject id e).1 = true
      ∧ mapFind? (s.reject id e).2.requests id = none
      ∧ mapFind? (s.reject id e).2.outcomes id = some (Settlement.rejected e)
      ∧ (s.reject id e).2.resolve id r2 = (false, (s.reject id e).2)
      ∧ (s.reject id e).2.reject id e2 = (false, (s.reject id e).2)) := by
  rw [mapHas] at hreg
  cases hfind : mapFind? s.requests id with
  | none => rw [hfind] at hreg; simp at hreg
  | some req =>
      have herased : mapFind? (mapErase s.requests id) id = none :=
        mapFind?_mapErase_self s.requests id
      refine ⟨?_, ?_, ?_⟩
      · rw [resolve_of_present s id r req hfind]
        exact ⟨rfl, herased, settle_find_self _ hout,
          resolve_of_absent _ id r2 herased, reject_of_absent _ id e2 herased,
          timeoutFire_of_absent _ id herased⟩
      · rw [timeoutFire_of_present s id req hfind]
        exact ⟨herased, settle_find_self _ hout,
          resolve_of_absent _ id r2 herased, reject_of_absent _ id e2 herased⟩
      · rw [reject_of_present s id e req hfind]
        exact ⟨rfl, herased, settle_find_self _ hout,
          resolve_of_absent _ id r2 herased, reject_of_absent _ id e2 herased⟩

theorem c1_store_exactly_once_completion_witness :
    (demoStore.resolve "perm_1" "allow").1 = true
    ∧ mapFind? (demoStore.resolve "perm_1" "allow").2.outcomes "perm_1"
        = some (Settlement.resolved "allow")
    ∧ (demoStore.resolve "perm_1" "allow").2.resolve "perm_1" "deny"
        = (false, (demoStore.resolve "perm_1" "allow").2)
    ∧ (demoStore.resolve "perm_1" "allow").2.timeoutFire "perm_1"
        = (demoStore.resolve "perm_1" "allow").2 := by
  have h := c1_store_exactly_once_completion demoStore "perm_1" "allow" "deny"
    ErrKind.storeCleared ErrKind.storeCleared (by decide) (by decide)
  exact ⟨h.1.1, h.1.2.2.1, h.1.2.2.2.1, h.1.2.2.2.2.2⟩

/-- C5: clearing a store fails every outstanding awaitable with the
distinguished store-cleared error and leaves the map empty. -/
theorem c5_clear_fails_all_outstanding (s : StoreState) (id : String)
    (hreg : mapHas s.requests id = true) (hout : mapFind? s.outcomes id = none) :
    s.clear.requests = []
    ∧ mapFind? s.clear.outcomes id = some (Settlement.rejected ErrKind.storeCleared) := by
  rw [mapHas] at hreg
  cases hfind : mapFind? s.requests id with
  | none => rw [hfind] at hreg; simp at hreg
  | some req =>
      refine ⟨rfl, ?_⟩
      exact clearFold_sets s.requests s.outcomes id
        ⟨(id, req), mapFind?_mem hfind, rfl⟩ hout

theorem c5_clear_fails_all_outstanding_witness :
    demoStore2.clear.requests = []
    ∧ mapFind? demoStore2.clear.outcomes "perm_1"
        = some (Settlement.rejected ErrKind.storeCleared)
    ∧ mapFind? demoStore2.clear.outcomes "perm_2"
        = some (Settlement.rejected ErrKind.storeCleared) := by
  have h1 := c5_clear_fails_all_outstanding demoStore2 "perm_1" (by decide) (by decide)
  have h2 := c5_clear_fails_all_outstanding demoStore2 "perm_2" (by decide) (by decide)
  exact ⟨h1.1, h1.2, h2.2⟩

/-- C2 counterexample: at a concrete send, the channel assigns native message
id 42 but `sendPermissionRequest` returns the request id `perm_1`, which is
not the native message id; a reply targeting the returned value is not
matchable, while a reply targeting the native id 42 is. -/
theorem c2_cex_returns_request_id :
    sendPermissionRequest { pendingMessageIds := [] } demoRequest (some 42)
      = Except.ok ({ pendingMessageIds := [("perm_1", 42)] }, "perm_1")
    ∧ ("perm_1" : String) ≠ toString (42 : Int)
    ∧ findRequestIdByMessageId { pendingMessageIds := [("perm_1", 42)] } "perm_1" = none
    ∧ findRequestIdByMessageId { pendingMessageIds := [("perm_1", 42)] } "42"
        = some "perm_1" :=
  ⟨rfl, by decide, rfl, rfl⟩

/-- C2 (amended): `sendPermissionRequest` returns the request id (not the
channel-assigned native message id), and registers the mapping from the
request id to the native message id in the correlation table before the call
returns, so a reply event targeting the native message id of the outbound
message is matchable immediately after send. -/
theorem c2_amended_registers_before_return (s : ChannelState)
    (request : PermissionRequest) (nativeId : Int) :
    ∃ s2 : ChannelState,
      sendPermissionRequest s request (some nativeId) = Except.ok (s2, request.id)
      ∧ mapFind? s2.pendingMessageIds request.id = some nativeId
      ∧ (findRequestIdByMessageId s2 (toString nativeId)).isSome = true := by
  refine ⟨{ pendingMessageIds := mapSet s.pendingMessageIds request.id nativeId },
    rfl, mapFind?_mapSet_self _ _ _, ?_⟩
  exact findByMsgId_isSome_of_mem (mapFind?_mem (mapFind?_mapSet_self _ _ _))

/-- C3: evaluation of `handleUpdate` at the failing inputs.  An unsolicited
text message (no reply target), a reply whose target matches no correlation
entry, and a callback query whose origin matches no correlation entry all
produce no effect at all: they are silently dropped, not forwarded to the
remote dispatcher (`handleUpdate` has no call into
`RemoteController.handleIncoming`). -/
theorem c3_uncorrelated_updates_dropped :
    handleUpdate { pendingMessageIds := [("perm_1", 42)] }
      { update_id := 1,
        message := some { message_id := 7, text := some "hello there", reply_to_message := none },
        callback_query := none } = []
    ∧ handleUpdate { pendingMessageIds := [("perm_1", 42)] }
      { update_id := 2,
        message := some { message_id := 8, text := some "deny", reply_to_message := some 99 },
        callback_query := none } = []
    ∧ handleUpdate { pendingMessageIds := [("perm_1", 42)] }
      { update_id := 3, message := none,
        callback_query := some { id := "cb1", message := some 99, data := some "allow" } }
        = [] := by
  exact ⟨rfl, by decide, by decide⟩

/-- C4 counterexample: the fallback branch of `parseResponse` does not pass
the input through verbatim — it returns the input trimmed of surrounding
whitespace. -/
theorem c4_cex_passthrough_is_trimmed :
    parseResponse " custom reply " ≠ " custom reply "
    ∧ parseResponse " custom reply " = "custom reply" := by
  exact ⟨by decide, by decide⟩

/-- C4 (amended): `parseResponse` is case-insensitive and maps each of
allow/yes/y/✅ to `allow` and each of deny/no/n/❌ to `deny`; every other
input passes through trimmed of surrounding whitespace but otherwise
unchanged. -/
theorem c4_amended_normalization (text : String) :
    parseResponse text =
      (if jsTrim (jsToLower text) ∈ (["allow", "yes", "y", "✅"] : List String) then
        "allow"
      else if jsTrim (jsToLower text) ∈ (["deny", "no", "n", "❌"] : List String) then
        "deny"
      else jsTrim text)
    ∧ parseResponse "YES" = "allow" ∧ parseResponse "yes" = "allow"
    ∧ parseResponse "Y" = "allow" ∧ parseResponse "✅" = "allow"
    ∧ parseResponse "no" = "deny" ∧ parseResponse "NO" = "deny"
    ∧ parseResponse "n" = "deny" ∧ parseResponse "❌" = "deny"
    ∧ parseResponse "do it differently" = "do it differently" := by
  refine ⟨?_, by decide, by decide, by decide, by decide, by decide, by decide,
    by decide, by decide, by decide⟩
  simp only [parseResponse, List.mem_cons, List.not_mem_nil, or_false]

/-- C6: when the awaited store promise fails, the permission orchestrator
performs exactly one terminal edit of the original message with the
no-response content and re-raises the same error; it never returns a
decision in that case. -/
theorem c6_failure_edits_then_reraises (tool requestId : String) (e : ErrKind) :
    handlePermissionOutcome tool requestId (Except.error e)
      = ([(requestId, timeoutEditText tool)], Except.error e)
    ∧ ∀ response : String,
        (handlePermissionOutcome tool requestId (Except.error e)).2
          ≠ Except.ok response := by
  refine ⟨rfl, ?_⟩
  intro response h
  simp [handlePermissionOutcome] at h

/-- C7 counterexample: an entry whose stored native message id is 0 defeats
the claim — the JS falsiness guard `if (!telegramMsgId) return` treats it as
absent, so `updateMessage` attempts no edit and the entry is NOT removed from
the correlation table. -/
theorem c7_cex_zero_native_id_entry_kept :
    updateMessage { pendingMessageIds := [("perm_1", (0 : Int))] } "perm_1" false
      = ({ pendingMessageIds := [("perm_1", 0)] }, none)
    ∧ mapFind?
        (updateMessage { pendingMessageIds := [("perm_1", (0 : Int))] } "perm_1" false).1.pendingMessageIds
        "perm_1" = some 0 := by
  exact ⟨rfl, rfl⟩

/-- C7 (amended): `updateMessage` never throws — a failing edit is swallowed
and yields the same result as a successful one — and, provided the stored
native message id is nonzero (the absence guard uses JS falsiness, so an
entry whose native id is 0 is treated as absent and left in place), the entry
for the given id is removed afterward regardless of edit success, so that id
can never again be matched by a later inbound reply or callback. -/
theorem c7_amended_swallow_and_remove (s : ChannelState) (messageId : String)
    (nativeId : Int) (hfind : mapFind? s.pendingMessageIds messageId = some nativeId)
    (hnz : nativeId ≠ 0) :
    (∀ editFails : Bool,
       updateMessage s messageId editFails
         = ({ pendingMessageIds := mapErase s.pendingMessageIds messageId },
            some (EditAttempt.attempted nativeId (!editFails))))
    ∧ mapFind? (mapErase s.pendingMessageIds messageId) messageId = none
    ∧ ∀ m : String,
        findRequestIdByMessageId
          { pendingMessageIds := mapErase s.pendingMessageIds messageId } m
          ≠ some messageId := by
  refine ⟨?_, mapFind?_mapErase_self _ _, ?_⟩
  · intro editFails
    simp [updateMessage, hfind, hnz]
  · intro m hsome
    obtain ⟨v, hv⟩ := findByMsgId_mem_of_some hsome
    exact ne_of_mem_mapErase hv rfl

theorem c7_amended_swallow_and_remove_witness :
    updateMessage { pendingMessageIds := [("perm_1", (42 : Int))] } "perm_1" true
      = ({ pendingMessageIds := [] }, some (EditAttempt.attempted 42 false))
    ∧ updateMessage { pendingMessageIds := [("perm_1", (42 : Int))] } "perm_1" false
      = ({ pendingMessageIds := [] }, some (EditAttempt.attempted 42 true))
    ∧ findRequestIdByMessageId { pendingMessageIds := [] } "42" ≠ some "perm_1" := by
  have h := c7_amended_swallow_and_remove
    { pendingMessageIds := [("perm_1", (42 : Int))] } "perm_1" 42 rfl (by decide)
  exact ⟨h.1 true, h.1 false, h.2.2 "42"⟩

/-- C8: the `use` command resolves a session-id prefix against the host's
session list: zero matches reports not-found and leaves the state unchanged,
several matches reports ambiguity and leaves the state unchanged, exactly one
match sets the active session id, persists it, and confirms. -/
theorem c8_use_prefix_resolution (s : RemoteState) (sessions : List SessionInfo)
    (pfx : String) :
    (sessions.filter (fun session => jsStartsWith session.id pfx) = [] →
      setActiveSession s sessions pfx
        = (s, [RemoteEffect.channelSend sessionNotFoundText]))
    ∧ (1 < (sessions.filter (fun session => jsStartsWith session.id pfx)).length →
      setActiveSession s sessions pfx
        = (s, [RemoteEffect.channelSend ambiguousSessionText]))
    ∧ (∀ session : SessionInfo,
        sessions.filter (fun s2 => jsStartsWith s2.id pfx) = [session] →
        setActiveSession s sessions pfx
          = ({ s with activeSessionId := some session.id },
             [RemoteEffect.persistActiveSession session.id,
              RemoteEffect.channelSend (activeSessionSetText session.id)])) := by
  refine ⟨?_, ?_, ?_⟩
  · intro h
    simp [setActiveSession, h]
  · intro h
    cases hm : sessions.filter (fun session => jsStartsWith session.id pfx) with
    | nil => rw [hm] at h; simp at h
    | cons a t =>
        cases t with
        | nil => rw [hm] at h; simp at h
        | cons b t2 => simp [setActiveSession, hm]
  · intro session h
    simp [setActiveSession, h]

theorem c8_use_prefix_resolution_witness :
    setActiveSession { enabled := true, activeSessionId := none } demoSessions "zz"
      = ({ enabled := true, activeSessionId := none },
         [RemoteEffect.channelSend sessionNotFoundText])
    ∧ setActiveSession { enabled := true, activeSessionId := none } demoSessions "ab"
      = ({ enabled := true, activeSessionId := none },
         [RemoteEffect.channelSend ambiguousSessionText])
    ∧ setActiveSession { enabled := true, activeSessionId := none } demoSessions "abc1"
      = ({ enabled := true, activeSessionId := some "abc12345" },
         [RemoteEffect.persistActiveSession "abc12345",
          RemoteEffect.channelSend (activeSessionSetText "abc12345")]) := by
  have h0 := c8_use_prefix_resolution
    { enabled := true, activeSessionId := none } demoSessions "zz"
  have h2 := c8_use_prefix_resolution
    { enabled := true, activeSessionId := none } demoSessions "ab"
  have h1 := c8_use_prefix_resolution
    { enabled := true, activeSessionId := none } demoSessions "abc1"
  exact ⟨h0.1 (by decide), h2.2.1 (by decide),
    h1.2.2 { id := "abc12345", title := "fix build", updated := 5 } (by decide)⟩

/-- C9: a non-command free-text message handled while enabled and with no
active session makes the dispatcher send the select-a-session response and
never submit a prompt to the host; the message is not silently dropped. -/
theorem c9_free_text_without_active_session (s : RemoteState) (messageText : String)
    (sessions : List SessionInfo) (promptError : Option String)
    (hen : s.enabled = true) (hne : jsTrim messageText ≠ "")
    (hcmd : jsStartsWith (jsTrim messageText) "/" = false)
    (hact : s.activeSessionId = none) :
    handleIncoming s messageText sessions promptError
      = (s, [RemoteEffect.channelSend noActiveSessionText])
    ∧ ∀ sid t : String,
        RemoteEffect.promptSession sid t
          ∉ (handleIncoming s messageText sessions promptError).2 := by
  have key : handleIncoming s messageText sessions promptError
      = (s, [RemoteEffect.channelSend noActiveSessionText]) := by
    simp [handleIncoming, hen, hne, hcmd, hact]
  refine ⟨key, ?_⟩
  intro sid t hmem
  rw [key] at hmem
  simp at hmem

theorem c9_free_text_without_active_session_witness :
    handleIncoming { enabled := true, activeSessionId := none }
      "run the tests" demoSessions none
      = ({ enabled := true, activeSessionId := none },
         [RemoteEffect.channelSend noActiveSessionText]) :=
  (c9_free_text_without_active_session { enabled := true, activeSessionId := none }
    "run the tests" demoSessions none rfl (by decide) (by decide) rfl).1

/-- C10 (implicit): calling `updateMessage` with an id that has no entry in
the correlation table is a complete no-op: no edit is attempted and the
channel state is unchanged. -/
theorem c10_update_missing_id_noop (s : ChannelState) (messageId : String)
    (editFails : Bool) (h : mapFind? s.pendingMessageIds messageId = none) :
    updateMessage s messageId editFails = (s, none) := by
  simp [updateMessage, h]

theorem c10_update_missing_id_noop_witness :
    updateMessage { pendingMessageIds := [("perm_2", (7 : Int))] } "perm_1" true
      = ({ pendingMessageIds := [("perm_2", 7)] }, none) :=
  c10_update_missing_id_noop
    { pendingMessageIds := [("perm_2", 7)] } "perm_1" true (by decide)

end ChannelsPlugin
